import Mathlib

/-!
Verification development for the astro-koharu theme-update orchestration
subsystem: data model, state-machine transition function, conflict
resolution policy, backup/restore path mapping, and the interaction
handlers of the terminal update and restore applications.

Sources embedded from the repository:
- the update application component (UpdateApp) with its effects and
  interaction handlers;
- the restore application component (RestoreApp) with its dry-run and
  restore confirm paths;
- the backup item table (BACKUP_ITEMS) and the derived restore map
  (RESTORE_MAP);
- the shared type declarations (UpdateOptions, GitStatusInfo, UpdateInfo,
  MergeResult, UpdateState, UpdateAction, UpdateStatus).

The reducer (update-reducer.ts), the status effect table
(update-effects.ts) and the git operation helpers (update-operations.ts)
are not part of the available sources; where a claim depends on them they
are modelled from the specification, and each such definition carries a
doc comment that says so.
-/

/-- Commit information (CommitInfo in the update constants). -/
structure CommitInfo where
  hash : String
  message : String
  date : String
  author : String
deriving DecidableEq

/-- Git status information (GitStatusInfo in the update constants). -/
structure GitStatusInfo where
  currentBranch : String
  isClean : Bool
  uncommittedCount : Nat
  uncommittedFiles : List String
deriving DecidableEq

/-- Update status information (UpdateInfo in the update constants). -/
structure UpdateInfo where
  hasUpstream : Bool
  behindCount : Nat
  aheadCount : Nat
  commits : List CommitInfo
  localCommits : List CommitInfo
  currentVersion : String
  latestVersion : String
  isDowngrade : Bool
deriving DecidableEq

/-- Merge result (MergeResult in the update constants). -/
structure MergeResult where
  success : Bool
  hasConflict : Bool
  conflictFiles : List String
  error : Option String := none
  isRebaseConflict : Bool := false
  autoResolvedFiles : Option (List String) := none
  preCleanSha : Option String := none
deriving DecidableEq

/-- GitHub release information (ReleaseInfo in the update constants). -/
structure ReleaseInfo where
  tagName : String
  url : String
  body : Option String
deriving DecidableEq

/-- Update process status (UpdateStatus in the update constants). -/
inductive UpdateStatus where
  | checking
  | dirtyWarning
  | backupConfirm
  | backingUp
  | fetching
  | preview
  | merging
  | cleanRestoring
  | installing
  | done
  | conflict
  | upToDate
  | error
deriving DecidableEq

/-- Update process configuration options (UpdateOptions in the update constants). -/
structure UpdateOptions where
  checkOnly : Bool
  skipBackup : Bool
  force : Bool
  targetTag : Option String := none
  rebase : Bool
  dryRun : Bool
  clean : Bool
deriving DecidableEq

/-- State machine state (UpdateState in the update constants). -/
structure UpdateState where
  status : UpdateStatus
  gitStatus : Option GitStatusInfo
  updateInfo : Option UpdateInfo
  mergeResult : Option MergeResult
  backupFile : String
  error : String
  branchWarning : String
  options : UpdateOptions
  needsMigration : Bool
  restoredFiles : List String
deriving DecidableEq

/-- State machine action (UpdateAction in the update constants). -/
inductive UpdateAction where
  | GIT_CHECKED (payload : GitStatusInfo)
  | FETCHED (payload : UpdateInfo) (needsMigration : Bool)
  | BACKUP_CONFIRM
  | BACKUP_SKIP
  | BACKUP_DONE (backupFile : String)
  | UPDATE_CONFIRM
  | MERGED (payload : MergeResult)
  | CLEAN_RESTORED (restoredFiles : List String)
  | INSTALLED
  | ERROR (error : String)
deriving DecidableEq

/-- Modelled from the spec: createInitialState of update-reducer.ts is not
among the available sources. The state is constructed once at workflow
start from the options; the workflow enters the checking status with no
git status, no update info, no merge result, an empty backup file and no
restored files. -/
def createInitialState (opts : UpdateOptions) : UpdateState :=
  { status := UpdateStatus.checking
    gitStatus := none
    updateInfo := none
    mergeResult := none
    backupFile := ""
    error := ""
    branchWarning := ""
    options := opts
    needsMigration := false
    restoredFiles := [] }

/-- Modelled from the spec: the updateReducer transition function of
update-reducer.ts is not among the available sources; this follows the
transition contract of the design document clause by clause. An action
arriving in a state it is not declared from leaves the state unchanged. -/
def updateReducer (s : UpdateState) (a : UpdateAction) : UpdateState :=
  match a with
  | UpdateAction.GIT_CHECKED g =>
      if s.status = UpdateStatus.checking then
        if !g.isClean && !s.options.force then
          { s with status := UpdateStatus.dirtyWarning, gitStatus := some g }
        else if s.options.skipBackup && !s.options.rebase && !s.options.clean then
          { s with status := UpdateStatus.fetching, gitStatus := some g }
        else
          { s with status := UpdateStatus.backupConfirm, gitStatus := some g }
      else s
  | UpdateAction.BACKUP_CONFIRM =>
      if s.status = UpdateStatus.backupConfirm then
        { s with status := UpdateStatus.backingUp }
      else s
  | UpdateAction.BACKUP_SKIP =>
      if s.status = UpdateStatus.backupConfirm then
        { s with status := UpdateStatus.fetching }
      else s
  | UpdateAction.BACKUP_DONE f =>
      if s.status = UpdateStatus.backingUp then
        { s with status := UpdateStatus.fetching, backupFile := f }
      else s
  | UpdateAction.FETCHED u nm =>
      if s.status = UpdateStatus.fetching then
        if !u.hasUpstream || (u.behindCount == 0 && u.aheadCount == 0 && !u.isDowngrade) then
          { s with status := UpdateStatus.upToDate, updateInfo := some u, needsMigration := nm }
        else
          { s with status := UpdateStatus.preview, updateInfo := some u, needsMigration := nm }
      else s
  | UpdateAction.UPDATE_CONFIRM =>
      if s.status = UpdateStatus.preview then
        { s with status := UpdateStatus.merging }
      else s
  | UpdateAction.MERGED r =>
      if s.status = UpdateStatus.merging then
        if !r.success && !r.hasConflict then
          { s with status := UpdateStatus.error, mergeResult := some r,
                   error := r.error.getD "" }
        else if r.hasConflict then
          { s with status := UpdateStatus.conflict, mergeResult := some r }
        else if s.options.clean then
          { s with status := UpdateStatus.cleanRestoring, mergeResult := some r }
        else
          { s with status := UpdateStatus.installing, mergeResult := some r }
      else s
  | UpdateAction.CLEAN_RESTORED fs =>
      if s.status = UpdateStatus.cleanRestoring then
        { s with status := UpdateStatus.installing, restoredFiles := fs }
      else s
  | UpdateAction.INSTALLED =>
      if s.status = UpdateStatus.installing then
        { s with status := UpdateStatus.done }
      else s
  | UpdateAction.ERROR msg =>
      { s with status := UpdateStatus.error, error := msg }

/-- Which actions the surrounding application can dispatch in a given
state. Derived from the UpdateApp component: each spinner status has one
effect that reports its own completion action; the backup-confirm screen
offers the skip choice only outside rebase and clean modes (in those
modes the screen is a confirm-or-cancel prompt whose cancel exits the
whole workflow without dispatching); a BACKUP_DONE payload is the base
name of the archive file the backup run produced, hence non-empty; the
ERROR action can be dispatched from anywhere. The effect table itself
(update-effects.ts) is not among the available sources and is modelled
from the spec for the states it drives. -/
def canDispatch (s : UpdateState) : UpdateAction → Prop
  | UpdateAction.GIT_CHECKED _ => s.status = UpdateStatus.checking
  | UpdateAction.FETCHED _ _ => s.status = UpdateStatus.fetching
  | UpdateAction.BACKUP_CONFIRM => s.status = UpdateStatus.backupConfirm
  | UpdateAction.BACKUP_SKIP =>
      s.status = UpdateStatus.backupConfirm ∧
        s.options.rebase = false ∧ s.options.clean = false
  | UpdateAction.BACKUP_DONE f => s.status = UpdateStatus.backingUp ∧ f ≠ ""
  | UpdateAction.UPDATE_CONFIRM => s.status = UpdateStatus.preview
  | UpdateAction.MERGED _ => s.status = UpdateStatus.merging
  | UpdateAction.CLEAN_RESTORED _ => s.status = UpdateStatus.cleanRestoring
  | UpdateAction.INSTALLED => s.status = UpdateStatus.installing
  | UpdateAction.ERROR _ => True

/-- One step of the driven state machine: some dispatchable action is
applied through the reducer. -/
def updStep (s t : UpdateState) : Prop :=
  ∃ a : UpdateAction, canDispatch s a ∧ t = updateReducer s a

/-- States reachable by the driven state machine from the initial state
for the given options. -/
def Reachable (opts : UpdateOptions) (s : UpdateState) : Prop :=
  Relation.ReflTransGen updStep (createInitialState opts) s

/-- Statuses that lie at or beyond the fetching step of the workflow:
every merge, rebase, tree replace or install step happens in one of
these. -/
def postBackupStatus : UpdateStatus → Bool
  | UpdateStatus.fetching => true
  | UpdateStatus.preview => true
  | UpdateStatus.merging => true
  | UpdateStatus.cleanRestoring => true
  | UpdateStatus.installing => true
  | UpdateStatus.done => true
  | UpdateStatus.conflict => true
  | UpdateStatus.upToDate => true
  | _ => false

/-- Backup item configuration (BackupItem in the backup constants). -/
structure BackupItem where
  src : String
  dest : String
  label : String
  required : Bool
  pattern : Option String := none
deriving DecidableEq

/-- List of backup projects (BACKUP_ITEMS in the backup constants). -/
def BACKUP_ITEMS : List BackupItem :=
  [ { src := "src/content/blog", dest := "content/blog", label := "Blog posts", required := true }
  , { src := "config/site.yaml", dest := "config/site.yaml", label := "Site configuration", required := true }
  , { src := "src/pages", dest := "pages", label := "Standalone pages", required := true, pattern := some "*.md" }
  , { src := "public/img", dest := "img", label := "User images", required := true }
  , { src := ".env", dest := "env", label := "Environment variables", required := true }
  , { src := "public/favicon.ico", dest := "favicon.ico", label := "Favicon", required := false }
  , { src := "src/assets/lqips.json", dest := "assets/lqips.json", label := "LQIP data", required := false }
  , { src := "src/assets/similarities.json", dest := "assets/similarities.json", label := "Similarity data", required := false }
  , { src := "src/assets/summaries.json", dest := "assets/summaries.json", label := "AI summary data", required := false } ]

/-- Object.fromEntries over string pairs: the resulting map sends a key to
the value of the last entry carrying it, and keys never listed to none. -/
def fromEntries (entries : List (String × String)) : String → Option String :=
  entries.foldl (fun acc e => fun k => if k = e.1 then some e.2 else acc k) (fun _ => none)

/-- Restore file mapping (RESTORE_MAP in the backup constants),
automatically generated from BACKUP_ITEMS: backup path to project path. -/
def RESTORE_MAP : String → Option String :=
  fromEntries (BACKUP_ITEMS.map (fun item => (item.dest, item.src)))

/-- Modelled from the spec: the path classification function of the
conflict resolution policy (part of update-operations.ts, not among the
available sources). A path is user-owned content when it is one of the
backup source paths of BACKUP_ITEMS or lies below one of them. -/
def isUserContentPath (p : String) : Bool :=
  BACKUP_ITEMS.any (fun item => p == item.src || p.startsWith (item.src ++ "/"))

/-- Modelled from the spec: the auto-resolution step of the conflict
resolution policy (resolveUserContentConflicts in update-operations.ts,
not among the available sources). Conflicting files classified as
user-owned content are auto-resolved to the local version; every other
conflicting path is left for manual resolution. -/
def resolveUserContentConflicts (conflicts : List String) : List String × List String :=
  (conflicts.filter (fun f => isUserContentPath f),
   conflicts.filter (fun f => !(isUserContentPath f)))

/-- Completion effect of UpdateApp for check-only and dry-run modes: in
the preview status with checkOnly or dryRun set the component completes
without any further transition. -/
def checkOnlyCompletes (status : UpdateStatus) (opts : UpdateOptions) : Bool :=
  decide (status = UpdateStatus.preview) && (opts.checkOnly || opts.dryRun)

/-- Force-mode auto-confirm effect of UpdateApp: in the preview status
with force set and neither checkOnly nor dryRun, the component dispatches
UPDATE_CONFIRM by itself; otherwise it dispatches nothing. -/
def forceAutoConfirmActions (status : UpdateStatus) (opts : UpdateOptions) : List UpdateAction :=
  if decide (status = UpdateStatus.preview) && opts.force && !opts.checkOnly && !opts.dryRun then
    [UpdateAction.UPDATE_CONFIRM]
  else
    []

/-- Outcome of the release metadata fetch as seen by the effect. -/
inductive FetchOutcome where
  | ok (info : ReleaseInfo)
  | failed (msg : String)
deriving DecidableEq

/-- Release-information loading effect of UpdateApp: in the preview
status with a known latest version it fetches the release metadata; a
successful fetch only fills the local releaseInfo value, and a failed
fetch is swallowed, leaving the releaseInfo value empty. In neither case
is any state machine action dispatched. The first component is the
resulting releaseInfo value, the second the dispatched actions. -/
def releaseInfoEffect (status : UpdateStatus) (latestVersion : Option String)
    (outcome : FetchOutcome) : Option ReleaseInfo × List UpdateAction :=
  if decide (status = UpdateStatus.preview) &&
      (match latestVersion with
       | some v => v != "unknown"
       | none => false) then
    match outcome with
    | FetchOutcome.ok info => (some info, [])
    | FetchOutcome.failed _ => (none, [])
  else
    (none, [])

/-- Result of an abort handler of UpdateApp: either the workflow
completes, or an ERROR action carrying the manual command is
dispatched. -/
inductive AbortOutcome where
  | completed
  | errorDispatched (msg : String)
deriving DecidableEq

/-- Which git abort operation a handler invokes. -/
inductive GitAbortOp where
  | abortMergeOp
  | abortRebaseOp
deriving DecidableEq

/-- Abort-merge handler of UpdateApp: invokes abortMerge; on success the
workflow completes, on failure an ERROR action with the manual merge
abort command is dispatched. -/
def handleAbortMerge (abortSucceeded : Bool) : AbortOutcome :=
  if abortSucceeded then AbortOutcome.completed
  else AbortOutcome.errorDispatched "Could not abort merge. Please run git merge --abort manually"

/-- Abort-rebase handler of UpdateApp: invokes abortRebase; on success
the workflow completes, on failure an ERROR action with the manual rebase
abort command is dispatched. -/
def handleAbortRebase (abortSucceeded : Bool) : AbortOutcome :=
  if abortSucceeded then AbortOutcome.completed
  else AbortOutcome.errorDispatched "Could not abort rebase. Please run git rebase --abort manually"

/-- Confirm action of the conflict screen of UpdateApp: the confirm
handler is handleAbortRebase when the merge result is a rebase conflict
and handleAbortMerge otherwise. Returns the invoked operation and its
outcome; the outcome argument tells whether the underlying git abort
succeeded. -/
def conflictAbortConfirm (isRebaseConflict : Bool) (abortSucceeded : Bool) :
    GitAbortOp × AbortOutcome :=
  if isRebaseConflict then (GitAbortOp.abortRebaseOp, handleAbortRebase abortSucceeded)
  else (GitAbortOp.abortMergeOp, handleAbortMerge abortSucceeded)

/-- Observable shape of the working tree for the clean-mode argument:
the commit at head, whether the theme files have been wholesale replaced
relative to the pre-clean commit, and whether the user content paths are
present. -/
structure RepoTree where
  headSha : String
  themeReplaced : Bool
  userContentPresent : Bool
deriving DecidableEq

/-- A hybrid tree: replaced theme with the user content missing. -/
def isHybridTree (r : RepoTree) : Bool :=
  r.themeReplaced && !r.userContentPresent

/-- Modelled from the spec: the clean-mode replace and restore step of
update-effects.ts and update-operations.ts, not among the available
sources. The current commit is recorded as preCleanSha, the tree is
hard-replaced with the upstream tree (theme replaced, user content paths
no longer present until restored), and the backup restore scoped to user
content runs. On restore success the workflow reports done; on restore
failure the working tree is rolled back with a hard reset to preCleanSha,
which restores the pre-clean commit and its tree, and only then is the
error reported. Returns the final tree, the recorded preCleanSha and the
reported terminal status. -/
def cleanModeRun (pre : RepoTree) (upstreamSha : String) (restoreOk : Bool) :
    RepoTree × String × UpdateStatus :=
  let preCleanSha := pre.headSha
  let replaced : RepoTree :=
    { headSha := upstreamSha, themeReplaced := true, userContentPresent := false }
  if restoreOk then
    ({ replaced with userContentPresent := true }, preCleanSha, UpdateStatus.done)
  else
    ({ pre with headSha := preCleanSha }, preCleanSha, UpdateStatus.error)

/-- Restore process status (RestoreStatus in RestoreApp). -/
inductive RestoreStatus where
  | selecting
  | confirming
  | restoring
  | done
  | error
  | cancelled
deriving DecidableEq

/-- One entry of a restore preview (RestorePreviewItem). -/
structure RestorePreviewItem where
  path : String
  fileCount : Nat
deriving DecidableEq

/-- A backup collaborator operation the restore app can invoke on a
selected backup file. -/
inductive RestoreOp where
  | previewOp (file : String)
  | restoreOp (file : String)
deriving DecidableEq

/-- Whether a backup collaborator operation modifies the filesystem:
getRestorePreview only reads the archive, restoreBackup writes the
restored files (per the collaborator contract). -/
def modifiesFilesystem : RestoreOp → Bool
  | RestoreOp.previewOp _ => false
  | RestoreOp.restoreOp _ => true

/-- An item the restore app reports on its done screen: either a preview
item from a dry run or a restored path from a real restore. -/
inductive ReportedItem where
  | previewItem (item : RestorePreviewItem)
  | restoredPath (p : String)
deriving DecidableEq

/-- Result of running the confirm action of RestoreApp: the operations
invoked on the backup collaborator, the resulting status and the item
list reported. -/
structure RestoreRunResult where
  ops : List RestoreOp
  status : RestoreStatus
  reported : List ReportedItem
  errorMsg : String
deriving DecidableEq

/-- Dry-run path of RestoreApp (runDryRun): invokes getRestorePreview on
the selected backup, reports the preview items on success and the error
on failure. -/
def runDryRun (selected : String)
    (previewOutcome : Except String (List RestorePreviewItem)) : RestoreRunResult :=
  match previewOutcome with
  | Except.ok items =>
      { ops := [RestoreOp.previewOp selected]
        status := RestoreStatus.done
        reported := items.map ReportedItem.previewItem
        errorMsg := "" }
  | Except.error msg =>
      { ops := [RestoreOp.previewOp selected]
        status := RestoreStatus.error
        reported := []
        errorMsg := msg }

/-- Restore path of RestoreApp (runRestore): invokes restoreBackup on the
selected backup, reports the restored paths on success and the error on
failure. -/
def runRestore (selected : String)
    (restoreOutcome : Except String (List String)) : RestoreRunResult :=
  match restoreOutcome with
  | Except.ok restored =>
      { ops := [RestoreOp.restoreOp selected]
        status := RestoreStatus.done
        reported := restored.map ReportedItem.restoredPath
        errorMsg := "" }
  | Except.error msg =>
      { ops := [RestoreOp.restoreOp selected]
        status := RestoreStatus.error
        reported := []
        errorMsg := msg }

/-- Confirm handler of RestoreApp (handleConfirm): the dry-run path when
dryRun is set, the restore path otherwise. -/
def handleConfirm (dryRun : Bool) (selected : String)
    (previewOutcome : Except String (List RestorePreviewItem))
    (restoreOutcome : Except String (List String)) : RestoreRunResult :=
  if dryRun then runDryRun selected previewOutcome
  else runRestore selected restoreOutcome

/-- Options of a rebase-mode run with the skip-backup flag set, used to
exercise the mandatory-backup path. -/
def optsRebaseRun : UpdateOptions :=
  { checkOnly := false, skipBackup := true, force := false, targetTag := none,
    rebase := true, dryRun := false, clean := false }

/-- Options of a plain check-only run. -/
def optsCheckOnlyRun : UpdateOptions :=
  { checkOnly := true, skipBackup := false, force := false, targetTag := none,
    rebase := false, dryRun := false, clean := false }

/-- Options of a check-only run that also skips the backup prompt. -/
def optsCheckSkipRun : UpdateOptions :=
  { checkOnly := true, skipBackup := true, force := false, targetTag := none,
    rebase := false, dryRun := false, clean := false }

/-- A clean working tree on the main branch. -/
def cleanGit : GitStatusInfo :=
  { currentBranch := "main", isClean := true, uncommittedCount := 0, uncommittedFiles := [] }

/-- A dirty working tree with one uncommitted file. -/
def dirtyGit : GitStatusInfo :=
  { currentBranch := "main", isClean := false, uncommittedCount := 1,
    uncommittedFiles := ["src/content/blog/post.md"] }

/-- An upstream three commits ahead of the local repository. -/
def uThreeBehind : UpdateInfo :=
  { hasUpstream := true, behindCount := 3, aheadCount := 0, commits := [],
    localCommits := [], currentVersion := "2.1.0", latestVersion := "2.2.0",
    isDowngrade := false }

/-- A sample pre-clean working tree. -/
def preCleanTree : RepoTree :=
  { headSha := "abc1234", themeReplaced := false, userContentPresent := true }

/-- The backup-ordering invariant: the state carries the run's options
and, once the status lies at or beyond the fetching step, a non-empty
backup file. -/
def BackupInv (opts : UpdateOptions) (s : UpdateState) : Prop :=
  s.options = opts ∧ (postBackupStatus s.status = true → s.backupFile ≠ "")

/-- Claim C10: RESTORE_MAP is exactly the inverse of the BACKUP_ITEMS
dest-to-src assignment: every backup item dest is mapped back to its src,
the dest keys are pairwise distinct so there is one entry per backup
item, and hence restoring places each backed-up entry back at its
original project path. -/
theorem restore_map_inverts_backup_items :
    (BACKUP_ITEMS.all (fun item => RESTORE_MAP item.dest == some item.src) = true) ∧
    (BACKUP_ITEMS.map (fun item => item.dest)).Nodup ∧
    BACKUP_ITEMS.length = 9 := by
  refine ⟨by decide, by decide, by decide⟩

/-- Claim C5: the force-mode auto-confirm effect synthesizes
UPDATE_CONFIRM exactly when the status is preview, force is set and
neither checkOnly nor dryRun is set; in particular with checkOnly or
dryRun set it never dispatches UPDATE_CONFIRM. -/
theorem force_auto_confirm_iff (status : UpdateStatus) (opts : UpdateOptions) :
    UpdateAction.UPDATE_CONFIRM ∈ forceAutoConfirmActions status opts ↔
      (status = UpdateStatus.preview ∧ opts.force = true ∧
        opts.checkOnly = false ∧ opts.dryRun = false) := by
  constructor
  · intro hmem
    unfold forceAutoConfirmActions at hmem
    split at hmem
    · next h =>
        simp only [Bool.and_eq_true, decide_eq_true_eq, Bool.not_eq_true'] at h
        exact ⟨h.1.1.1, h.1.1.2, h.1.2, h.2⟩
    · simp at hmem
  · rintro ⟨h1, h2, h3, h4⟩
    unfold forceAutoConfirmActions
    rw [if_pos (by simp [h1, h2, h3, h4])]
    exact List.mem_singleton.mpr rfl

/-- Claim C7: a failure of the release-metadata fetch is swallowed: the
release-info effect dispatches no action at all (so the workflow state is
unchanged when the dispatched actions are applied) and leaves the
releaseInfo value empty, which renders as the no-release-notes
fallback. -/
theorem release_fetch_failure_swallowed (status : UpdateStatus) (v : Option String)
    (msg : String) (s : UpdateState) :
    (releaseInfoEffect status v (FetchOutcome.failed msg)).1 = none ∧
    (releaseInfoEffect status v (FetchOutcome.failed msg)).2 = [] ∧
    List.foldl updateReducer s (releaseInfoEffect status v (FetchOutcome.failed msg)).2 = s := by
  unfold releaseInfoEffect
  split <;> simp

/-- Claim C8: confirming the conflict-screen abort prompt invokes
abortRebase exactly when the merge result is a rebase conflict and
abortMerge otherwise; when the abort operation fails an ERROR outcome
carrying the matching manual abort command is produced instead of a
throw, and when it succeeds the workflow completes without an error
outcome. -/
theorem conflict_abort_dispatch (isRebaseConflict abortSucceeded : Bool) :
    ((conflictAbortConfirm isRebaseConflict abortSucceeded).1 =
        if isRebaseConflict then GitAbortOp.abortRebaseOp else GitAbortOp.abortMergeOp) ∧
    (conflictAbortConfirm isRebaseConflict true).2 = AbortOutcome.completed ∧
    (conflictAbortConfirm isRebaseConflict false).2 =
      AbortOutcome.errorDispatched
        (if isRebaseConflict then "Could not abort rebase. Please run git rebase --abort manually"
          else "Could not abort merge. Please run git merge --abort manually") := by
  cases isRebaseConflict <;> cases abortSucceeded <;> decide

/-- Claim C9: in the restore workflow the dry-run confirm path invokes
only getRestorePreview, which does not modify the filesystem, and the
reported items are the preview; restoreBackup is invoked only on the
non-dry-run confirm path. -/
theorem restore_dry_run_frame (selected : String)
    (previewOutcome : Except String (List RestorePreviewItem))
    (restoreOutcome : Except String (List String)) :
    (handleConfirm true selected previewOutcome restoreOutcome).ops =
        [RestoreOp.previewOp selected] ∧
    ((handleConfirm true selected previewOutcome restoreOutcome).ops.all
        (fun op => !(modifiesFilesystem op)) = true) ∧
    (∀ items : List RestorePreviewItem,
        (handleConfirm true selected (Except.ok items) restoreOutcome).reported =
          items.map ReportedItem.previewItem) ∧
    (handleConfirm false selected previewOutcome restoreOutcome).ops =
        [RestoreOp.restoreOp selected] := by
  refine ⟨?_, ?_, ?_, ?_⟩ <;>
    cases previewOutcome <;> cases restoreOutcome <;>
      simp [handleConfirm, runDryRun, runRestore, modifiesFilesystem]

/-- Claim C2: in clean mode a restore failure after the tree replace
rolls the working tree back to the recorded preCleanSha before the error
is reported: the final head commit equals the pre-clean head, the final
tree is the pre-clean tree, the reported status is error and not done,
and no outcome reported as done is a hybrid tree. -/
theorem clean_restore_failure_rolls_back (pre : RepoTree) (upstreamSha : String) :
    ((cleanModeRun pre upstreamSha false).1.headSha = pre.headSha) ∧
    ((cleanModeRun pre upstreamSha false).1 = pre) ∧
    ((cleanModeRun pre upstreamSha false).2.2 = UpdateStatus.error) ∧
    (∀ restoreOk : Bool,
        (cleanModeRun pre upstreamSha restoreOk).2.2 = UpdateStatus.done →
          isHybridTree (cleanModeRun pre upstreamSha restoreOk).1 = false) := by
  refine ⟨rfl, rfl, rfl, ?_⟩
  intro restoreOk hdone
  cases restoreOk
  · simp [cleanModeRun] at hdone
  · simp [cleanModeRun, isHybridTree]

/-- Witness for claim C2: at a concrete pre-clean tree, the successful
path reports done on a non-hybrid tree. -/
theorem clean_restore_failure_rolls_back_witness :
    isHybridTree (cleanModeRun preCleanTree "def5678" true).1 = false :=
  (clean_restore_failure_rolls_back preCleanTree "def5678").2.2.2 true (by decide)

/-- Claim C3: for every conflict file list, the auto-resolved files are
all user-content paths, the remaining conflict files are the original
conflicts minus the auto-resolved ones, and no path outside the
user-content classification is auto-resolved. -/
theorem conflict_policy_partition (conflicts : List String) :
    ((resolveUserContentConflicts conflicts).1.all (fun f => isUserContentPath f) = true) ∧
    (resolveUserContentConflicts conflicts).2 =
      conflicts.removeAll (resolveUserContentConflicts conflicts).1 ∧
    ((resolveUserContentConflicts conflicts).2.all (fun f => !(isUserContentPath f)) = true) := by
  refine ⟨?_, ?_, ?_⟩
  · simp [resolveUserContentConflicts, List.all_eq_true, List.mem_filter]
  · unfold resolveUserContentConflicts List.removeAll
    apply List.filter_congr
    intro x hx
    by_cases hP : isUserContentPath x = true
    · simp [hP, List.elem_iff, List.mem_filter, hx]
    · simp only [Bool.not_eq_true] at hP
      simp [hP, List.elem_iff, List.mem_filter]
  · simp [resolveUserContentConflicts, List.all_eq_true, List.mem_filter]

/-- Claim C4: on GIT_CHECKED from the checking state, a dirty tree
without force goes to dirty-warning (backup and rebase are never
attempted, whatever the mode flags); otherwise the machine goes to
backup-confirm, except that skipBackup with neither rebase nor clean set
goes directly to fetching. -/
theorem git_checked_transition (s : UpdateState) (g : GitStatusInfo)
    (hs : s.status = UpdateStatus.checking) :
    (g.isClean = false ∧ s.options.force = false →
        (updateReducer s (UpdateAction.GIT_CHECKED g)).status = UpdateStatus.dirtyWarning) ∧
    (¬(g.isClean = false ∧ s.options.force = false) →
      (s.options.skipBackup = true ∧ s.options.rebase = false ∧ s.options.clean = false →
          (updateReducer s (UpdateAction.GIT_CHECKED g)).status = UpdateStatus.fetching) ∧
      (¬(s.options.skipBackup = true ∧ s.options.rebase = false ∧ s.options.clean = false) →
          (updateReducer s (UpdateAction.GIT_CHECKED g)).status = UpdateStatus.backupConfirm)) := by
  cases hc : g.isClean <;> cases hf : s.options.force <;>
    cases hsb : s.options.skipBackup <;> cases hr : s.options.rebase <;>
      cases hcl : s.options.clean <;>
    simp [updateReducer, hs, hc, hf, hsb, hr, hcl]

/-- Witness for claim C4: with rebase and skipBackup set, a dirty tree
and force unset, the checking state transitions to dirty-warning. -/
theorem git_checked_transition_witness :
    (updateReducer (createInitialState optsRebaseRun)
        (UpdateAction.GIT_CHECKED dirtyGit)).status = UpdateStatus.dirtyWarning :=
  (git_checked_transition (createInitialState optsRebaseRun) dirtyGit rfl).1 ⟨rfl, rfl⟩

/-- Counterexample for claim C6: a run with options checkOnly true but
skipBackup false on a clean tree leaves checking for backup-confirm, not
for fetching, so the claimed sequence checking, fetching, preview, done
does not hold as stated. -/
theorem check_only_counterexample :
    (updateReducer (createInitialState optsCheckOnlyRun)
        (UpdateAction.GIT_CHECKED cleanGit)).status = UpdateStatus.backupConfirm ∧
    UpdateStatus.backupConfirm ≠ UpdateStatus.fetching := by
  decide

/-- Claim C6 as amended: a run with options checkOnly and skipBackup both
true on a clean working tree where upstream has three new commits follows
checking, fetching, preview; there the check-only completion effect ends
the run, and no backup was taken (backupFile stays empty) and no merge or
rebase state was ever entered. -/
theorem check_only_run_sequence (g : GitStatusInfo) (u : UpdateInfo) (nm : Bool)
    (hg : g.isClean = true) (hu : u.hasUpstream = true) (hb : u.behindCount = 3) :
    (createInitialState optsCheckSkipRun).status = UpdateStatus.checking ∧
    (updateReducer (createInitialState optsCheckSkipRun)
        (UpdateAction.GIT_CHECKED g)).status = UpdateStatus.fetching ∧
    (updateReducer (updateReducer (createInitialState optsCheckSkipRun)
        (UpdateAction.GIT_CHECKED g))
        (UpdateAction.FETCHED u nm)).status = UpdateStatus.preview ∧
    checkOnlyCompletes
      (updateReducer (updateReducer (createInitialState optsCheckSkipRun)
          (UpdateAction.GIT_CHECKED g))
          (UpdateAction.FETCHED u nm)).status
      (updateReducer (updateReducer (createInitialState optsCheckSkipRun)
          (UpdateAction.GIT_CHECKED g))
          (UpdateAction.FETCHED u nm)).options = true ∧
    (updateReducer (updateReducer (createInitialState optsCheckSkipRun)
        (UpdateAction.GIT_CHECKED g))
        (UpdateAction.FETCHED u nm)).backupFile = "" := by
  simp [updateReducer, createInitialState, optsCheckSkipRun, checkOnlyCompletes, hg, hu, hb]

/-- Witness for the amended claim C6: the concrete clean tree and the
concrete three-commits-behind upstream reach the preview status. -/
theorem check_only_run_sequence_witness :
    (updateReducer (updateReducer (createInitialState optsCheckSkipRun)
        (UpdateAction.GIT_CHECKED cleanGit))
        (UpdateAction.FETCHED uThreeBehind false)).status = UpdateStatus.preview :=
  (check_only_run_sequence cleanGit uThreeBehind false rfl rfl rfl).2.2.1

/-- The initial state satisfies the backup-ordering invariant. -/
theorem backupInv_init (opts : UpdateOptions) :
    BackupInv opts (createInitialState opts) := by
  refine ⟨rfl, ?_⟩
  intro h
  simp [createInitialState, postBackupStatus] at h

/-- The backup-ordering invariant is preserved by every dispatchable step
of a rebase-mode or clean-mode run. -/
theorem backupInv_step (opts : UpdateOptions)
    (hmode : opts.rebase = true ∨ opts.clean = true)
    {s t : UpdateState} (hst : updStep s t) (hinv : BackupInv opts s) :
    BackupInv opts t := by
  obtain ⟨a, hca, rfl⟩ := hst
  obtain ⟨hopts, hbk⟩ := hinv
  cases a with
  | GIT_CHECKED g =>
      simp only [canDispatch] at hca
      simp only [updateReducer, if_pos hca]
      by_cases h1 : (!g.isClean && !s.options.force) = true
      · rw [if_pos h1]
        exact ⟨hopts, fun h => by simp [postBackupStatus] at h⟩
      · rw [if_neg h1]
        by_cases h2 : (s.options.skipBackup && !s.options.rebase && !s.options.clean) = true
        · exfalso
          simp only [Bool.and_eq_true, Bool.not_eq_true'] at h2
          rw [hopts] at h2
          rcases hmode with hm | hm
          · simp [hm] at h2
          · simp [hm] at h2
        · rw [if_neg h2]
          exact ⟨hopts, fun h => by simp [postBackupStatus] at h⟩
  | BACKUP_CONFIRM =>
      simp only [canDispatch] at hca
      simp only [updateReducer, if_pos hca]
      exact ⟨hopts, fun h => by simp [postBackupStatus] at h⟩
  | BACKUP_SKIP =>
      exfalso
      simp only [canDispatch] at hca
      obtain ⟨-, hr, hcl⟩ := hca
      rw [hopts] at hr hcl
      rcases hmode with hm | hm
      · rw [hm] at hr; simp at hr
      · rw [hm] at hcl; simp at hcl
  | BACKUP_DONE f =>
      simp only [canDispatch] at hca
      obtain ⟨hstat, hf⟩ := hca
      simp only [updateReducer, if_pos hstat]
      exact ⟨hopts, fun _ => hf⟩
  | FETCHED u nm =>
      simp only [canDispatch] at hca
      have hb : s.backupFile ≠ "" := hbk (by rw [hca]; rfl)
      simp only [updateReducer, if_pos hca]
      by_cases h1 :
          (!u.hasUpstream || (u.behindCount == 0 && u.aheadCount == 0 && !u.isDowngrade)) = true
      · rw [if_pos h1]
        exact ⟨hopts, fun _ => hb⟩
      · rw [if_neg h1]
        exact ⟨hopts, fun _ => hb⟩
  | UPDATE_CONFIRM =>
      simp only [canDispatch] at hca
      have hb : s.backupFile ≠ "" := hbk (by rw [hca]; rfl)
      simp only [updateReducer, if_pos hca]
      exact ⟨hopts, fun _ => hb⟩
  | MERGED r =>
      simp only [canDispatch] at hca
      have hb : s.backupFile ≠ "" := hbk (by rw [hca]; rfl)
      simp only [updateReducer, if_pos hca]
      by_cases h1 : (!r.success && !r.hasConflict) = true
      · rw [if_pos h1]
        exact ⟨hopts, fun h => by simp [postBackupStatus] at h⟩
      · rw [if_neg h1]
        by_cases h2 : r.hasConflict = true
        · rw [if_pos h2]
          exact ⟨hopts, fun _ => hb⟩
        · rw [if_neg h2]
          by_cases h3 : s.options.clean = true
          · rw [if_pos h3]
            exact ⟨hopts, fun _ => hb⟩
          · rw [if_neg h3]
            exact ⟨hopts, fun _ => hb⟩
  | CLEAN_RESTORED fs =>
      simp only [canDispatch] at hca
      have hb : s.backupFile ≠ "" := hbk (by rw [hca]; rfl)
      simp only [updateReducer, if_pos hca]
      exact ⟨hopts, fun _ => hb⟩
  | INSTALLED =>
      simp only [canDispatch] at hca
      have hb : s.backupFile ≠ "" := hbk (by rw [hca]; rfl)
      simp only [updateReducer, if_pos hca]
      exact ⟨hopts, fun _ => hb⟩
  | ERROR msg =>
      simp only [updateReducer]
      exact ⟨hopts, fun h => by simp [postBackupStatus] at h⟩

/-- Every reachable state of a rebase-mode or clean-mode run satisfies
the backup-ordering invariant. -/
theorem backupInv_reachable (opts : UpdateOptions)
    (hmode : opts.rebase = true ∨ opts.clean = true)
    (s : UpdateState) (hreach : Reachable opts s) : BackupInv opts s := by
  induction hreach with
  | refl => exact backupInv_init opts
  | tail hsteps hstep ih => exact backupInv_step opts hmode hstep ih

/-- Claim C1: in every rebase-mode or clean-mode run, every reachable
state whose status lies at or beyond the fetching step carries a
non-empty backupFile, even when skipBackup is set; in particular the
workflow never reaches fetching, and hence never any merge, rebase or
tree-replace step, without a completed backup first. -/
theorem backup_before_fetching (opts : UpdateOptions) (s : UpdateState)
    (hmode : opts.rebase = true ∨ opts.clean = true)
    (hreach : Reachable opts s) (hpost : postBackupStatus s.status = true) :
    s.backupFile ≠ "" :=
  (backupInv_reachable opts hmode s hreach).2 hpost

/-- Witness for claim C1: a concrete rebase-mode run that confirms the
mandatory backup reaches the fetching status with a non-empty backup
file. -/
theorem backup_before_fetching_witness :
    (updateReducer (updateReducer (updateReducer (createInitialState optsRebaseRun)
        (UpdateAction.GIT_CHECKED cleanGit)) UpdateAction.BACKUP_CONFIRM)
        (UpdateAction.BACKUP_DONE "koharu-backup.tar.gz")).backupFile ≠ "" := by
  refine backup_before_fetching optsRebaseRun _ (Or.inl rfl) ?_ (by decide)
  have t1 : updStep (createInitialState optsRebaseRun)
      (updateReducer (createInitialState optsRebaseRun)
        (UpdateAction.GIT_CHECKED cleanGit)) :=
    ⟨UpdateAction.GIT_CHECKED cleanGit, rfl, rfl⟩
  have t2 : updStep
      (updateReducer (createInitialState optsRebaseRun)
        (UpdateAction.GIT_CHECKED cleanGit))
      (updateReducer (updateReducer (createInitialState optsRebaseRun)
        (UpdateAction.GIT_CHECKED cleanGit)) UpdateAction.BACKUP_CONFIRM) :=
    ⟨UpdateAction.BACKUP_CONFIRM, rfl, rfl⟩
  have t3 : updStep
      (updateReducer (updateReducer (createInitialState optsRebaseRun)
        (UpdateAction.GIT_CHECKED cleanGit)) UpdateAction.BACKUP_CONFIRM)
      (updateReducer (updateReducer (updateReducer (createInitialState optsRebaseRun)
        (UpdateAction.GIT_CHECKED cleanGit)) UpdateAction.BACKUP_CONFIRM)
        (UpdateAction.BACKUP_DONE "koharu-backup.tar.gz")) :=
    ⟨UpdateAction.BACKUP_DONE "koharu-backup.tar.gz", ⟨rfl, by decide⟩, rfl⟩
  exact Relation.ReflTransGen.tail
    (Relation.ReflTransGen.tail (Relation.ReflTransGen.single t1) t2) t3
